import Mathlib

/-
Verification of the orca OAuth authorization subsystem (src/net/auth.rs)
against its natural-language specification.

Shallow embedding conventions:
  * HTTP responses are modelled by their body string; headers, status and
    version are never consulted by the code under study.
  * The hyper `Service::call` handler is modelled as a pure function from
    the parsed query parameters to an `Option CallResult`; `none` marks a
    Rust panic (unguarded `HashMap` indexing, out-of-range slice, or a
    failed `unwrap`).
  * The parsed token-endpoint response (`conn.run_request`) is modelled,
    following the spec of the external Connection collaborator, as a
    partial map from field names to strings ("string-or-absent" lookup).
  * The `gen_ascii_chars` sampler of the rand crate is modelled by an
    explicit stream of draws `rng : Nat → Nat`, each draw indexing the
    62-character alphanumeric charset of the crate.
  * `std::time::Instant` is modelled as a natural number of seconds.
-/

namespace Orca

/-- Query parameters of the callback request, as the ordered list of
decoded key/value pairs produced by `url::form_urlencoded::parse`.
The Rust code collects them into a `HashMap`, where a later duplicate
key overwrites an earlier one. -/
def Params : Type := List (String × String)

/-- `HashMap::get` on the collected parameters: the value of the last
pair carrying the key, if any. -/
def findParam (ps : List (String × String)) (k : String) : Option String :=
  match ps with
  | [] => none
  | (k0, v0) :: rest =>
    match findParam rest k with
    | some v => some v
    | none => if k0 = k then some v0 else none

/-- `HashMap::contains_key` on the collected parameters. -/
def containsParam (ps : List (String × String)) (k : String) : Bool :=
  (findParam ps k).isSome

/-- The terminal outcome of the single callback exchange, one constructor
per branch of `InstalledAppService::call` (spec section 4.2 state machine:
`Succeeded(code) | Rejected(reason)`).  The code is sent through the
oneshot channel exactly in the `succeeded` branch. -/
inductive Outcome : Type where
  | rejectedRemoteError : Outcome
  | rejectedMissingState : Outcome
  | rejectedStateMismatch : Outcome
  | succeeded (code : String) : Outcome
deriving DecidableEq, Repr

/-- What the handler delivers for one request: the branch taken and the
body of the HTTP response written to the browser. -/
structure CallResult : Type where
  outcome : Outcome
  body : String
deriving DecidableEq, Repr

/-- The code delivered through the oneshot sender by this call, if any:
`sender.send(code)` runs only in the success branch. -/
def CallResult.sentCode (r : CallResult) : Option String :=
  match r.outcome with
  | Outcome.succeeded c => some c
  | _ => none

/-- `InstalledAppService` (auth.rs): the generated state string and the
optional configured success/error response templates, modelled by their
bodies.  The oneshot sender and the tokio core are effect plumbing with
no influence on the computed response. -/
structure InstalledAppService : Type where
  state : String
  s_resp : Option String
  e_resp : Option String
deriving DecidableEq, Repr

/-- Lines 391-396 of auth.rs: the success response is the configured
template, or a default body. -/
def InstalledAppService.successBody (svc : InstalledAppService) : String :=
  match svc.s_resp with
  | some b => b
  | none => "Authorization successful!"

/-- Lines 399-404 of auth.rs: the error response is the configured
template, or a default body.  The default written in the source is the
string "Authorization successful!", identical to the success default. -/
def InstalledAppService.errorBody (svc : InstalledAppService) : String :=
  match svc.e_resp with
  | some b => b
  | none => "Authorization successful!"

/-- `InstalledAppService::call` (auth.rs lines 384-431), after the query
string has been parsed into `params`.  Branches in source order:
an `error` key returns the error response; a missing `state` key returns
a literal "Authorization failed" body; a `state` differing from the
generated one returns the error response; otherwise the code parameter is
read by unguarded indexing (`params["code"]`), which panics (`none`) when
absent, and on success the code is sent and the success response
returned. -/
def InstalledAppService.call (svc : InstalledAppService) (params : List (String × String)) :
    Option CallResult :=
  let s_body := svc.successBody
  let e_body := svc.errorBody
  if containsParam params "error" then
    some ⟨Outcome.rejectedRemoteError, e_body⟩
  else
    match findParam params "state" with
    | none => some ⟨Outcome.rejectedMissingState, "Authorization failed"⟩
    | some st =>
      if st ≠ svc.state then
        some ⟨Outcome.rejectedStateMismatch, e_body⟩
      else
        match findParam params "code" with
        | none => none
        | some code => some ⟨Outcome.succeeded code, s_body⟩

/-- Line 387 of auth.rs: `&query_str[2..query_str.len()]` slices the
first two bytes off the request URI unconditionally; for an ASCII URI of
byte length below two the slice is out of range and panics (`none`). -/
def sliceUriQuery (uri : String) : Option String :=
  if uri.length < 2 then none else some ((uri.toList.drop 2).asString)

/-- The error type of the errors module as used by auth.rs: every
authorization failure is surfaced as the single `AuthError` variant. -/
inductive RedditError : Type where
  | AuthError : RedditError
deriving DecidableEq, Repr

/-- Lines 264-269 of auth.rs: once the callback server has shut down, the
orchestrator reads the code slot, which was filled exactly when the
oneshot sender fired; if it is empty the authorize call fails with
`RedditError::AuthError`. -/
def finishAuthorize (code : Option String) : Except RedditError String :=
  match code with
  | some c => Except.ok c
  | none => Except.error RedditError.AuthError

/-- `OAuth` (auth.rs lines 116-144): the session produced by a successful
authorization.  Interior-mutability cells are modelled by plain values;
`Instant` by a natural number of seconds. -/
inductive OAuth : Type where
  | Script (id secret username password token : String) : OAuth
  | InstalledApp (id redirect token : String)
      (refresh_token : Option String) (expire_instant : Option Nat) : OAuth
deriving DecidableEq, Repr

/-- `OAuth::refresh` (auth.rs lines 147-150): the body is a bare
`unimplemented!()`, which panics unconditionally for every session
variant; modelled as `none`.  A completed no-op returning success would
be `some ()`. -/
def OAuth.refresh (_self : OAuth) : Option Unit := none

/-- Script arm of `OAuth::new` (auth.rs lines 184-197), after the token
request has produced the parsed `response` map: presence of
`access_token` yields a `Script` session carrying that token, absence
yields `RedditError::AuthError`.  Under the string-valued response model
of the Connection collaborator, `as_str().unwrap()` is total. -/
def scriptAuthorize (id secret username password : String)
    (response : String → Option String) : Except RedditError OAuth :=
  match response "access_token" with
  | some token =>
    Except.ok (OAuth.Script id secret username password token)
  | none => Except.error RedditError.AuthError

/-- `str::parse::<u64>` as applied to the `expires_in` field: succeeds on
a non-empty all-digit string whose value fits in 64 bits, and fails
otherwise (the optional leading sign accepted by the Rust parser is
irrelevant to a decimal seconds count and not modelled). -/
def parseU64 (s : String) : Option Nat :=
  let cs := s.toList
  if cs ≠ [] ∧ cs.all Char.isDigit then
    let n := cs.foldl (fun acc c => acc * 10 + (c.toNat - 48)) 0
    if n < 2 ^ 64 then some n else none
  else none

/-- InstalledApp token exchange of `OAuth::new` (auth.rs lines 291-314),
after the code has been exchanged and the parsed `response` map obtained
at time `now`: all four of `expires_in`, `access_token`, `refresh_token`
and `scope` must be present, else `RedditError::AuthError`; `expires_in`
is parsed as a `u64` with a bare `unwrap` that panics (`none`) on a
non-numeric or overflowing value; the expiry instant is `now` plus the
parsed number of seconds. -/
def installedAppTokenExchange (id redirect : String)
    (response : String → Option String) (now : Nat) :
    Option (Except RedditError OAuth) :=
  match response "expires_in", response "access_token",
      response "refresh_token", response "scope" with
  | some expires_in, some token, some refresh_token, some _scope =>
    match parseU64 expires_in with
    | some n =>
      some (Except.ok (OAuth.InstalledApp id redirect token
        (some refresh_token) (some (now + n))))
    | none => none
  | _, _, _, _ => some (Except.error RedditError.AuthError)

/-- The 62-character charset of the `gen_ascii_chars` sampler of the
rand crate, used at auth.rs lines 206-209. -/
def GEN_ASCII_STR_CHARSET : List Char :=
  "ABCDEFGHIJKLMNOPQRSTUVWXYZabcdefghijklmnopqrstuvwxyz0123456789".toList

/-- One draw of `gen_ascii_chars`: the raw draw indexes the charset. -/
def genAsciiChar (r : Nat) : Char :=
  GEN_ASCII_STR_CHARSET.getD (r % 62) 'A'

/-- Auth.rs lines 206-209: the state string of one authorization attempt,
`gen_ascii_chars().take(16).collect()`, with the thread rng modelled by
the stream of draws belonging to the attempt. -/
def genState (rng : Nat → Nat) : String :=
  ((List.range 16).map (fun i => genAsciiChar (rng i))).asString

/-- C1: for every callback whose query parameters hold no `error` key and
hold a `state` key differing from the generated state, the handler takes
the state-mismatch rejection branch and answers with the error page, no
code is sent, and the enclosing authorize call therefore fails with the
authorization error — whether or not a `code` parameter is present. -/
theorem state_mismatch_rejected (svc : InstalledAppService)
    (params : List (String × String)) (st : String)
    (herr : containsParam params "error" = false)
    (hst : findParam params "state" = some st)
    (hne : st ≠ svc.state) :
    svc.call params = some ⟨Outcome.rejectedStateMismatch, svc.errorBody⟩ ∧
    finishAuthorize
        (CallResult.sentCode ⟨Outcome.rejectedStateMismatch, svc.errorBody⟩) =
      Except.error RedditError.AuthError := by
  refine ⟨?_, rfl⟩
  simp [InstalledAppService.call, herr, hst, hne]

/-- Witness for C1 at the concrete scenario of the spec: generated state
"abcdef0123456789", request carrying state "wrong" and a code. -/
theorem state_mismatch_rejected_witness :
    InstalledAppService.call ⟨"abcdef0123456789", none, none⟩
        [("state", "wrong"), ("code", "XYZ")] =
      some ⟨Outcome.rejectedStateMismatch, "Authorization successful!"⟩ ∧
    finishAuthorize
        (CallResult.sentCode
          ⟨Outcome.rejectedStateMismatch, "Authorization successful!"⟩) =
      Except.error RedditError.AuthError :=
  state_mismatch_rejected ⟨"abcdef0123456789", none, none⟩
    [("state", "wrong"), ("code", "XYZ")] "wrong"
    (by decide) (by decide) (by decide)

/-- C3: for every callback whose query parameters hold an `error` key the
handler takes the remote-error rejection branch and answers with the
error response, whatever the `state` and `code` parameters hold — the
branch is taken before `state` is consulted. -/
theorem remote_error_rejected_first (svc : InstalledAppService)
    (params : List (String × String))
    (herr : containsParam params "error" = true) :
    svc.call params = some ⟨Outcome.rejectedRemoteError, svc.errorBody⟩ := by
  simp [InstalledAppService.call, herr]

/-- Witness for C3: the rejection fires even with a matching state and a
code present. -/
theorem remote_error_rejected_first_witness :
    InstalledAppService.call ⟨"abcdef0123456789", none, none⟩
        [("error", "access_denied"), ("state", "abcdef0123456789"),
         ("code", "XYZ")] =
      some ⟨Outcome.rejectedRemoteError, "Authorization successful!"⟩ :=
  remote_error_rejected_first ⟨"abcdef0123456789", none, none⟩
    [("error", "access_denied"), ("state", "abcdef0123456789"),
     ("code", "XYZ")] (by decide)

/-- C4 (divergence): with no configured templates, a callback carrying an
`error` parameter is answered with the body "Authorization successful!"
— the default error body written at auth.rs line 402 — and not with
"Authorization failed" as specified, while the success default does read
"Authorization successful!". -/
theorem default_error_body_divergence :
    InstalledAppService.call ⟨"abcdef0123456789", none, none⟩
        [("error", "access_denied")] =
      some ⟨Outcome.rejectedRemoteError, "Authorization successful!"⟩ ∧
    InstalledAppService.call ⟨"abcdef0123456789", none, none⟩
        [("state", "abcdef0123456789"), ("code", "XYZ")] =
      some ⟨Outcome.succeeded "XYZ", "Authorization successful!"⟩ ∧
    "Authorization successful!" ≠ "Authorization failed" := by
  refine ⟨rfl, rfl, ?_⟩
  decide

/-- C5: a Script token-endpoint response lacking `access_token` makes
authorize return the authorization error, a value and not a panic, and a
response carrying `access_token` yields a Script session holding exactly
that token. -/
theorem script_token_presence (id secret username password : String)
    (response : String → Option String) :
    (response "access_token" = none →
      scriptAuthorize id secret username password response =
        Except.error RedditError.AuthError) ∧
    (∀ t, response "access_token" = some t →
      scriptAuthorize id secret username password response =
        Except.ok (OAuth.Script id secret username password t)) := by
  constructor
  · intro h
    simp [scriptAuthorize, h]
  · intro t h
    simp [scriptAuthorize, h]

/-- Witness for C5 at an empty response and at a response carrying token
"T". -/
theorem script_token_presence_witness :
    scriptAuthorize "i" "s" "u" "p" (fun _ => none) =
      Except.error RedditError.AuthError ∧
    scriptAuthorize "i" "s" "u" "p" (fun _ => some "T") =
      Except.ok (OAuth.Script "i" "s" "u" "p" "T") :=
  ⟨(script_token_presence "i" "s" "u" "p" (fun _ => none)).1 rfl,
   (script_token_presence "i" "s" "u" "p" (fun _ => some "T")).2 "T" rfl⟩

/-- C6: the token endpoint answering expires_in "3600", access_token "T",
refresh_token "R" and scope "read" at time t0 yields a session whose
expiry instant is t0 + 3600 and whose refresh token is "R". -/
theorem installed_token_exchange_scenario (id redirect : String) (t0 : Nat) :
    installedAppTokenExchange id redirect
        (fun k => findParam
          [("expires_in", "3600"), ("access_token", "T"),
           ("refresh_token", "R"), ("scope", "read")] k) t0 =
      some (Except.ok
        (OAuth.InstalledApp id redirect "T" (some "R") (some (t0 + 3600)))) := by
  have h1 : findParam
      [("expires_in", "3600"), ("access_token", "T"),
       ("refresh_token", "R"), ("scope", "read")] "expires_in" = some "3600" := by
    decide
  have h2 : findParam
      [("expires_in", "3600"), ("access_token", "T"),
       ("refresh_token", "R"), ("scope", "read")] "access_token" = some "T" := by
    decide
  have h3 : findParam
      [("expires_in", "3600"), ("access_token", "T"),
       ("refresh_token", "R"), ("scope", "read")] "refresh_token" = some "R" := by
    decide
  have h4 : findParam
      [("expires_in", "3600"), ("access_token", "T"),
       ("refresh_token", "R"), ("scope", "read")] "scope" = some "read" := by
    decide
  have h5 : parseU64 "3600" = some 3600 := by decide
  simp [installedAppTokenExchange, h1, h2, h3, h4, h5]

/-- C7: an InstalledApp token-exchange response in which any of the four
fields expires_in, access_token, refresh_token, scope is absent makes
authorize fail with the authorization error rather than yield a session. -/
theorem incomplete_token_response_rejected (id redirect : String)
    (response : String → Option String) (now : Nat)
    (h : response "expires_in" = none ∨ response "access_token" = none ∨
         response "refresh_token" = none ∨ response "scope" = none) :
    installedAppTokenExchange id redirect response now =
      some (Except.error RedditError.AuthError) := by
  unfold installedAppTokenExchange
  cases he : response "expires_in" <;>
    cases ha : response "access_token" <;>
    cases hr : response "refresh_token" <;>
    cases hs : response "scope" <;>
    simp_all

/-- Witness for C7 at the fully empty response. -/
theorem incomplete_token_response_rejected_witness :
    installedAppTokenExchange "i" "r" (fun _ => none) 0 =
      some (Except.error RedditError.AuthError) :=
  incomplete_token_response_rejected "i" "r" (fun _ => none) 0 (Or.inl rfl)

/-- C8 (counterexample): refreshing a concrete Script session does not
return success — the body of `OAuth::refresh` is `unimplemented!()` and
panics. -/
theorem refresh_script_not_success :
    OAuth.refresh (OAuth.Script "i" "s" "u" "p" "T") ≠ some () := by
  decide

/-- C8 (amended): `refresh` is unimplemented and panics unconditionally
for every session, Script sessions included; it never returns success. -/
theorem refresh_always_unimplemented (s : OAuth) : s.refresh = none := rfl

/-- C9: the state string of every authorization attempt is sixteen
characters long — hence at least sixteen — and every character of it is
an ASCII alphanumeric, for every stream of random draws. -/
theorem state_length_and_alphabet (rng : Nat → Nat) :
    16 ≤ (genState rng).length ∧
    ∀ c, c ∈ (genState rng).toList → c.isAlphanum = true := by
  constructor
  · simp [genState]
  · intro c hc
    have hc2 : c ∈ (List.range 16).map (fun i => genAsciiChar (rng i)) := hc
    obtain ⟨i, _hi, hci⟩ := List.mem_map.mp hc2
    have hmem : genAsciiChar (rng i) ∈ GEN_ASCII_STR_CHARSET := by
      have hlt : rng i % 62 < GEN_ASCII_STR_CHARSET.length := by
        have hlen : GEN_ASCII_STR_CHARSET.length = 62 := by decide
        have h62 : rng i % 62 < 62 := Nat.mod_lt _ (by decide)
        omega
      have hgd := List.getD_eq_getElem GEN_ASCII_STR_CHARSET 'A' hlt
      rw [genAsciiChar, hgd]
      exact List.getElem_mem hlt
    have halpha : ∀ d ∈ GEN_ASCII_STR_CHARSET, d.isAlphanum = true := by
      decide
    rw [← hci]
    exact halpha _ hmem

/-- Witness for C9 at the all-zero draw stream, whose state string is
sixteen copies of the first charset character. -/
theorem state_length_and_alphabet_witness :
    16 ≤ (genState (fun _ => 0)).length ∧ Char.isAlphanum 'A' = true :=
  ⟨(state_length_and_alphabet (fun _ => 0)).1,
   (state_length_and_alphabet (fun _ => 0)).2 'A' (by decide)⟩

/-- C10: the handler is not total — a callback with no `error` key, a
matching `state` and no `code` key reaches the unguarded map indexing and
panics instead of producing a rejection, and the unconditional two-byte
slice of the request URI likewise panics on a URI shorter than two
bytes. -/
theorem missing_code_lookup_panics (svc : InstalledAppService)
    (params : List (String × String))
    (herr : containsParam params "error" = false)
    (hst : findParam params "state" = some svc.state)
    (hcode : findParam params "code" = none) :
    svc.call params = none ∧ sliceUriQuery "/" = none := by
  refine ⟨?_, rfl⟩
  simp [InstalledAppService.call, herr, hst, hcode]

/-- Witness for C10: a request carrying only the matching state. -/
theorem missing_code_lookup_panics_witness :
    InstalledAppService.call ⟨"abcdef0123456789", none, none⟩
        [("state", "abcdef0123456789")] = none ∧
    sliceUriQuery "/" = none :=
  missing_code_lookup_panics ⟨"abcdef0123456789", none, none⟩
    [("state", "abcdef0123456789")] (by decide) (by decide) (by decide)

end Orca
